import Mathlib

/-!
Verification of the unchecked-extraction capability (`unsafe_unwrap`) of the
`unsafe-unwrap` crate, shallowly embedded from `src/lib.rs`.

The crate exposes one trait, `UnsafeUnwrap`, with a single operation
`unsafe_unwrap`, implemented for `Option<T>` and `Result<T, E>`.  Both
implementations return the payload in the present/success case and call the
internal helper `unreachable()` otherwise.  The helper panics via the
`unreachable!` macro when `debug_assertions` are on, and in optimized builds
diverges through undefined behaviour (a transmute of a zero-sized struct into
an uninhabited enum, matched on with no arms).

The embedding makes the build configuration an explicit parameter and the
possible terminations of a call explicit as an `Outcome`: a normal return of
the payload, a panic carrying its diagnostic string, or undefined behaviour.
-/

namespace UnsafeUnwrapCrate

/-- The build configuration: `debug` when the crate is compiled with
`debug_assertions` (the `cfg!(debug_assertions)` test in `unreachable` is
true), `optimized` for release builds. -/
inductive Config where
  | debug
  | optimized
deriving DecidableEq, Repr

/-- How a call to the extraction operation terminates: `ret v` is a normal
return of the payload `v`; `panicked msg` is a panic (a fatal halt of the
execution context) with diagnostic `msg`; `undef` is the undefined behaviour
reached when the release-mode unreachable hint is actually executed. -/
inductive Outcome (T : Type) where
  | ret : T → Outcome T
  | panicked : String → Outcome T
  | undefinedBehavior : Outcome T
deriving DecidableEq, Repr

/-- Whether the outcome is a normal return of a value. -/
def Outcome.isRet : Outcome T → Bool
  | .ret _ => true
  | _ => false

/-- Whether the outcome is a panic (a fatal halt with a diagnostic). -/
def Outcome.isHalt : Outcome T → Bool
  | .panicked _ => true
  | _ => false

/-- The diagnostic the Rust `unreachable!()` macro panics with. -/
def unreachableMsg : String := "internal error: entered unreachable code"

/-- Embedding of the helper `unsafe fn unreachable() -> !` of `src/lib.rs`
lines 39-49: under `debug_assertions` it panics via `unreachable!()`; in
release builds it executes `match transmute::<_, Impossible>(ZeroSized) {}`,
which transmutes a zero-sized struct into an uninhabited enum — undefined
behaviour, never a normal return. -/
def unreachable (T : Type) (cfg : Config) : Outcome T :=
  match cfg with
  | .debug => .panicked unreachableMsg
  | .optimized => .undefinedBehavior

/-- Embedding of `impl<T> UnsafeUnwrap<T> for Option<T>` (`src/lib.rs` lines
51-56): `if let Some(x) = self { x } else { unreachable() }`. -/
def unsafe_unwrap_option (cfg : Config) : Option T → Outcome T
  | some x => .ret x
  | none => unreachable T cfg

/-- Embedding of `impl<T, E> UnsafeUnwrap<T> for Result<T, E>` (`src/lib.rs`
lines 58-63): `if let Ok(x) = self { x } else { unreachable() }`.  Rust's
`Result<T, E>` is embedded as `Except E T`, with `Except.ok` for `Ok` and
`Except.error` for `Err`. -/
def unsafe_unwrap_result (cfg : Config) : Except E T → Outcome T
  | .ok x => .ret x
  | .error _ => unreachable T cfg

/-- The branch of the `if let` inside `unsafe_unwrap` that a call executes:
`payload` is the arm binding and returning the contained value, `absent` the
arm calling `unreachable()`. -/
inductive Branch where
  | payload
  | absent
deriving DecidableEq, Repr

/-- `unsafe_unwrap` for `Option<T>` instrumented to record which arm of the
`if let` executed, alongside the outcome.  The control structure is that of
`src/lib.rs` lines 53-55. -/
def unsafe_unwrap_option_traced (cfg : Config) : Option T → Outcome T × Branch
  | some x => (.ret x, .payload)
  | none => (unreachable T cfg, .absent)

/-- `unsafe_unwrap` for `Result<T, E>` instrumented to record which arm of
the `if let` executed, alongside the outcome.  The control structure is that
of `src/lib.rs` lines 60-62. -/
def unsafe_unwrap_result_traced (cfg : Config) : Except E T → Outcome T × Branch
  | .ok x => (.ret x, .payload)
  | .error _ => (unreachable T cfg, .absent)

/-- The checked standard extraction `Option::unwrap`: returns the payload of
`Some`, panics on `None` with the standard library's diagnostic.  The check
is performed in every build configuration. -/
def checked_unwrap_option : Option T → Outcome T
  | some x => .ret x
  | none => .panicked "called `Option::unwrap()` on a `None` value"

/-- The checked standard extraction `Result::unwrap`: returns the payload of
`Ok`, panics on `Err` with the standard library's diagnostic, which includes
the debug rendering of the error value (`eRepr`).  The check is performed in
every build configuration. -/
def checked_unwrap_result (eRepr : E → String) : Except E T → Outcome T
  | .ok x => .ret x
  | .error e =>
      .panicked ("called `Result::unwrap()` on an `Err` value: " ++ eRepr e)

/-- The traced variant computes the same outcome as the plain embedding of
`unsafe_unwrap` on `Option<T>`. -/
theorem unsafe_unwrap_option_traced_fst (cfg : Config) (o : Option T) :
    (unsafe_unwrap_option_traced cfg o).1 = unsafe_unwrap_option cfg o := by
  cases o <;> rfl

/-- The traced variant computes the same outcome as the plain embedding of
`unsafe_unwrap` on `Result<T, E>`. -/
theorem unsafe_unwrap_result_traced_fst (cfg : Config) (r : Except E T) :
    (unsafe_unwrap_result_traced cfg r).1 = unsafe_unwrap_result cfg r := by
  cases r <;> rfl

/-- C1: for every value `v`, `unsafe_unwrap` on `Some v` under the debug
configuration returns exactly `v`, directly and unwrapped, with no halt. -/
theorem C1_option_debug_some_returns (T : Type) (v : T) :
    unsafe_unwrap_option Config.debug (some v) = Outcome.ret v
    ∧ (unsafe_unwrap_option Config.debug (some v)).isHalt = false :=
  ⟨rfl, rfl⟩

/-- C2: for every value `v` and error type `E`, `unsafe_unwrap` on `Ok v`
under the debug configuration returns exactly `v`, with no halt. -/
theorem C2_result_debug_ok_returns (T E : Type) (v : T) :
    unsafe_unwrap_result Config.debug (Except.ok v : Except E T) = Outcome.ret v
    ∧ (unsafe_unwrap_result Config.debug (Except.ok v : Except E T)).isHalt = false :=
  ⟨rfl, rfl⟩

/-- C3: on `None`, and on `Err e` for any `e`, `unsafe_unwrap` under the
debug configuration panics with a diagnostic (the `unreachable!` message) and
does not return a value: the halt is a panic, never a normal return. -/
theorem C3_absent_debug_halts (T E : Type) (e : E) :
    (unsafe_unwrap_option Config.debug (none : Option T)
        = Outcome.panicked unreachableMsg
      ∧ (unsafe_unwrap_option Config.debug (none : Option T)).isRet = false)
    ∧ (unsafe_unwrap_result Config.debug (Except.error e : Except E T)
        = Outcome.panicked unreachableMsg
      ∧ (unsafe_unwrap_result Config.debug (Except.error e : Except E T)).isRet
          = false) :=
  ⟨⟨rfl, rfl⟩, ⟨rfl, rfl⟩⟩

/-- C4: with the precondition satisfied, extraction is configuration
independent: under the optimized configuration `unsafe_unwrap` on `Some v`
and on `Ok v` returns exactly `v`, identically to the debug configuration. -/
theorem C4_optimized_matches_debug_on_present (T E : Type) (v : T) :
    unsafe_unwrap_option Config.optimized (some v) = Outcome.ret v
    ∧ unsafe_unwrap_option Config.optimized (some v)
        = unsafe_unwrap_option Config.debug (some v)
    ∧ unsafe_unwrap_result Config.optimized (Except.ok v : Except E T)
        = Outcome.ret v
    ∧ unsafe_unwrap_result Config.optimized (Except.ok v : Except E T)
        = unsafe_unwrap_result Config.debug (Except.ok v : Except E T) :=
  ⟨rfl, rfl, rfl, rfl⟩

/-- C5: under the precondition that the container holds a present/success
value, the `unreachable()` arm of `unsafe_unwrap` is never executed in either
configuration: the executed branch is the payload arm, and the outcome is the
payload returned. -/
theorem C5_precondition_avoids_unreachable (cfg : Config) (T E : Type)
    (o : Option T) (r : Except E T) (v w : T)
    (ho : o = some v) (hr : r = Except.ok w) :
    (unsafe_unwrap_option_traced cfg o).2 = Branch.payload
    ∧ (unsafe_unwrap_option_traced cfg o).1 = Outcome.ret v
    ∧ (unsafe_unwrap_result_traced cfg r).2 = Branch.payload
    ∧ (unsafe_unwrap_result_traced cfg r).1 = Outcome.ret w := by
  subst ho hr
  exact ⟨rfl, rfl, rfl, rfl⟩

/-- Witness for C5 at `Some 3` and `Ok 5` under the optimized
configuration. -/
theorem C5_witness :
    (unsafe_unwrap_option_traced Config.optimized (some 3)).2 = Branch.payload
    ∧ (unsafe_unwrap_option_traced Config.optimized (some 3)).1 = Outcome.ret 3
    ∧ (unsafe_unwrap_result_traced Config.optimized
        (Except.ok 5 : Except Unit Nat)).2 = Branch.payload
    ∧ (unsafe_unwrap_result_traced Config.optimized
        (Except.ok 5 : Except Unit Nat)).1 = Outcome.ret 5 :=
  C5_precondition_avoids_unreachable Config.optimized Nat Unit
    (some 3) (Except.ok 5) 3 5 rfl rfl

/-- C6: `unsafe_unwrap` on `Err e1` and on `Err e2` produce the same outcome
in every configuration: the failure payload is discarded before the
`unreachable()` call, so behaviour on the failure case does not depend on the
error value. -/
theorem C6_error_value_irrelevant (cfg : Config) (T E : Type) (e1 e2 : E) :
    unsafe_unwrap_result cfg (Except.error e1 : Except E T)
      = unsafe_unwrap_result cfg (Except.error e2 : Except E T) :=
  rfl

/-- C7: in the debug configuration, on a precondition violation (`None` or
`Err e`), `unsafe_unwrap` behaves like the checked standard unwrap: both
halt with a panic and neither returns a value. -/
theorem C7_debug_matches_checked_on_violation (T E : Type) (e : E)
    (eRepr : E → String) :
    ((unsafe_unwrap_option Config.debug (none : Option T)).isHalt = true
      ∧ (checked_unwrap_option (none : Option T)).isHalt = true
      ∧ (unsafe_unwrap_option Config.debug (none : Option T)).isRet = false
      ∧ (checked_unwrap_option (none : Option T)).isRet = false)
    ∧ ((unsafe_unwrap_result Config.debug
          (Except.error e : Except E T)).isHalt = true
      ∧ (checked_unwrap_result eRepr (Except.error e : Except E T)).isHalt = true
      ∧ (unsafe_unwrap_result Config.debug
          (Except.error e : Except E T)).isRet = false
      ∧ (checked_unwrap_result eRepr (Except.error e : Except E T)).isRet
          = false) :=
  ⟨⟨rfl, rfl, rfl, rfl⟩, ⟨rfl, rfl, rfl, rfl⟩⟩

/-- C8: `unsafe_unwrap` is a pure, deterministic transformation: the outcome
depends only on the consumed container and the build configuration, so two
runs on equal containers in the same configuration produce identical
outcomes.  In this embedding the operation is a function of exactly those two
arguments, so no state outside the consumed container is read or written. -/
theorem C8_deterministic (cfg1 cfg2 : Config) (T E : Type)
    (o1 o2 : Option T) (r1 r2 : Except E T)
    (hc : cfg1 = cfg2) (ho : o1 = o2) (hr : r1 = r2) :
    unsafe_unwrap_option cfg1 o1 = unsafe_unwrap_option cfg2 o2
    ∧ unsafe_unwrap_result cfg1 r1 = unsafe_unwrap_result cfg2 r2 := by
  subst hc ho hr
  exact ⟨rfl, rfl⟩

/-- Witness for C8 at `Some 7` and `Err ()` under the debug configuration. -/
theorem C8_witness :
    unsafe_unwrap_option Config.debug (some 7)
      = unsafe_unwrap_option Config.debug (some 7)
    ∧ unsafe_unwrap_result Config.debug (Except.error () : Except Unit Nat)
      = unsafe_unwrap_result Config.debug (Except.error () : Except Unit Nat) :=
  C8_deterministic Config.debug Config.debug Nat Unit
    (some 7) (some 7) (Except.error ()) (Except.error ()) rfl rfl rfl

/-- C10: the helper `unreachable` never returns normally in either
configuration — in debug it panics via `unreachable!`, in optimized it is the
undefined-behaviour divergence of the uninhabited-enum transmute — so the
only normal return path of `unsafe_unwrap` is the present/success arm. -/
theorem C10_unreachable_never_returns (cfg : Config) (T E : Type) :
    (∀ v : T, unreachable T cfg ≠ Outcome.ret v)
    ∧ unreachable T Config.debug = Outcome.panicked unreachableMsg
    ∧ unreachable T Config.optimized = Outcome.undefinedBehavior
    ∧ (∀ (o : Option T) (v : T),
        unsafe_unwrap_option cfg o = Outcome.ret v → o = some v)
    ∧ (∀ (r : Except E T) (v : T),
        unsafe_unwrap_result cfg r = Outcome.ret v → r = Except.ok v) := by
  refine ⟨?_, rfl, rfl, ?_, ?_⟩
  · intro v h
    cases cfg <;> simp [unreachable] at h
  · intro o v h
    cases o with
    | some x =>
        cases h
        rfl
    | none =>
        cases cfg <;> simp [unsafe_unwrap_option, unreachable] at h
  · intro r v h
    cases r with
    | ok x =>
        cases h
        rfl
    | error e =>
        cases cfg <;> simp [unsafe_unwrap_result, unreachable] at h

end UnsafeUnwrapCrate
